import Mathlib

/-!
Verification of the wishlist / one-time QR-token core of the
complex-shopify-service repository.

The definitions below are a shallow embedding of the JavaScript source:

* The embedded operations are `createWishlist`, `getWishlist`,
  `updateWishlist`, `deleteWishlist`, `generateQRCode` (mobile controller);
  `fetchWishlist`, `completeWishlist`, `cancelWishlist`, `getWishlistStatus`
  (POS controller); and `createWishlistGeneral` (with its idempotency-ledger
  steps), `getWishlistById`, `searchWishlists`, `updateWishlistItems`,
  `cancelWishlistGeneral`, `expireWishlist` (general wishlist controller).
* The Sequelize store is modelled as lists of rows; `findByPk`, `findOne`
  (with owner filter), row update by primary key, row insertion and row
  deletion are explicit functions on that state.
* Machine time (`new Date()`) is a `Nat` (milliseconds) threaded as a
  parameter; random token generation and UUID generation are parameters.
* JS falsiness of absent / empty strings is modelled by `""` (or `Option`),
  and `a || b` fallbacks by explicit helpers.
-/

namespace Shopify

/-- Wishlist lifecycle status, from the `status` ENUM of the Wishlist model. -/
inductive Status where
  | ACTIVE
  | PROCESSING
  | COMPLETED
  | CANCELLED
  | EXPIRED
deriving DecidableEq, Repr

/-- Free-form JSON metadata object, modelled as an association list from keys
to (opaque) string values. -/
abbrev Metadata := List (String × String)

/-- Lookup of a key in a metadata object (JS property read). -/
def mget : Metadata → String → Option String
  | [], _ => none
  | (k', v') :: rest, k => if k' = k then some v' else mget rest k

/-- JS property assignment on a spread copy of a metadata object:
`md = { ...old }; md[k] = v`. -/
def mset : Metadata → String → String → Metadata
  | [], k, v => [(k, v)]
  | (k', v') :: rest, k, v =>
      if k' = k then (k, v) :: rest else (k', v') :: mset rest k v

/-- Caller-supplied item payload. Fields mirror the alternative spellings the
controllers read (`item.variant_id || item.variantId`, ...). The
`product_data` column stores `item.product_data || item`; absent a separate
`product_data` key it is the payload itself, so the embedding stores the
whole payload. -/
structure ItemInput where
  variant_id : Option String := none
  variantId : Option String := none
  product_id : Option String := none
  productId : Option String := none
  quantity : Option Nat := none
  product_title : Option String := none
  title : Option String := none
  variant_title : Option String := none
  variantTitle : Option String := none
  price : Option String := none
  currency : Option String := none
  barcode : Option String := none
  image_url : Option String := none
  imageUrl : Option String := none
deriving DecidableEq, Repr

/-- JS `a || b` on two possibly-absent strings: an empty string is falsy. -/
def jsOr (a b : Option String) : Option String :=
  match a with
  | some s => if s = "" then b else some s
  | none => b

/-- JS `a || d` with a string default: an empty string is falsy. -/
def jsOrD (a : Option String) (d : String) : String :=
  match a with
  | some s => if s = "" then d else s
  | none => d

/-- JS `item.quantity || 1`: absent and `0` are both falsy. -/
def qtyOrOne (q : Option Nat) : Nat :=
  match q with
  | some n => if n = 0 then 1 else n
  | none => 1

/-- A persisted WishlistItem row, fields from the WishlistItem model as the
controllers populate them. -/
structure WishlistItem where
  wishlist_id : Nat
  shopify_variant_id : Option String
  shopify_product_id : Option String
  quantity : Nat
  product_title : Option String
  variant_title : Option String
  price : Option String
  currency : String
  barcode : Option String
  image_url : Option String
  product_data : ItemInput
deriving DecidableEq, Repr

/-- Build a WishlistItem row from a caller payload, with the `||` fallbacks of
`WishlistItem.create({...})` in the controllers. -/
def mkItem (wid : Nat) (it : ItemInput) : WishlistItem :=
  { wishlist_id := wid
    shopify_variant_id := jsOr it.variant_id it.variantId
    shopify_product_id := jsOr it.product_id it.productId
    quantity := qtyOrOne it.quantity
    product_title := jsOr it.product_title it.title
    variant_title := jsOr it.variant_title it.variantTitle
    price := it.price
    currency := jsOrD it.currency "HKD"
    barcode := it.barcode
    image_url := jsOr it.image_url it.imageUrl
    product_data := it }

/-- A persisted Wishlist row, fields from the Wishlist model. Timestamps are
`Nat` milliseconds; nullable columns are `Option`. -/
structure Wishlist where
  wishlist_id : Nat
  user_id : String
  status : Status
  source : String
  qr_code_token : String
  qr_code_used_at : Option Nat
  processed_at : Option Nat
  processed_by : Option String
  expires_at : Nat
  metadata : Metadata
  created_at : Nat
deriving DecidableEq, Repr

/-- Status of an idempotency-ledger record, from the Idempotency model ENUM. -/
inductive IdemStatus where
  | PROCESSING
  | COMPLETED
  | FAILED
deriving DecidableEq, Repr

/-- The response body cached by the idempotency ledger for a completed
create-wishlist call: the `{ wishlist, qr_code_token }` object the general
create returned (the wishlist with its items, plus the token). -/
structure CachedBody where
  w : Option Wishlist
  items : List WishlistItem
  qr_code_token : String
deriving DecidableEq, Repr

/-- HTTP response of an embedded operation. Each constructor corresponds to
one `res.status(...).json({...})` shape in the controllers; payload fields
are the response-body fields the claims talk about.

* `validationErr` — 400 with a missing-input message;
* `invalidState` — 400 with a `Cannot ... with status: X` message (the status
  is the payload so the message is determined by it);
* `conflictUsed` — 409 with the `used_at` timestamp of the earlier redemption;
* `gone` — 410, carrying `expired_at` in the POS fetch response (absent in the
  mobile QR response);
* `created` / `okWishlist` / `okFetched` — 201 / 200 carrying the (re-fetched)
  wishlist and its items;
* `okQR` — 200 with the QR token, expiry and the item summary of `qr_data`;
* `okStatus` — 200 with the four status-query fields;
* `okReplay` — 200 replaying a cached idempotent response body;
* `conflictKey` — 409 for an idempotency key still in flight;
* `serverError` — a store failure propagated through `next(error)`;
* `createdG` — the general create's 201 `{ wishlist, qr_code_token }`;
* `okSearch` — the search's 200 page with its total count. -/
inductive Resp where
  | validationErr (msg : String)
  | notFound (msg : String)
  | forbidden (msg : String)
  | invalidState (st : Status)
  | conflictUsed (used_at : Nat)
  | gone (expired_at : Option Nat)
  | created (w : Option Wishlist) (items : List WishlistItem)
  | okWishlist (w : Option Wishlist) (items : List WishlistItem)
  | okFetched (w : Option Wishlist) (items : List WishlistItem)
  | okQR (qr_token : String) (expires_at : Nat)
      (summary : List (Option String × Nat))
  | okCompleted (w : Wishlist)
  | okCancelled (w : Wishlist)
  | okDeleted
  | okExpired (w : Wishlist)
  | okStatus (st : Status) (qr_code_used : Bool) (processed : Bool)
      (expired : Bool)
  | okReplay (cached : Option CachedBody)
  | conflictKey
  | serverError
  | createdG (w : Option Wishlist) (items : List WishlistItem)
      (qr_code_token : String)
  | okSearch (rows : List Wishlist) (total limit offset : Nat)
deriving DecidableEq, Repr

/-- A row of the idempotency ledger, fields from the Idempotency model. The
cached response body is stored as a `CachedBody`. -/
structure IdemRecord where
  idempotency_key : String
  wishlist_id : Option Nat
  operation_type : String
  response_data : Option CachedBody
  status : IdemStatus
deriving DecidableEq, Repr

/-- The persistent store: the wishlists, wishlist_items and idempotency
tables. -/
structure Store where
  wishlists : List Wishlist
  items : List WishlistItem
  idems : List IdemRecord
deriving DecidableEq, Repr

/-- The empty store. -/
def emptyStore : Store := { wishlists := [], items := [], idems := [] }

/-- `Wishlist.findByPk(id)`: first row with the given primary key. -/
def findByPk (s : Store) (id : Nat) : Option Wishlist :=
  s.wishlists.find? (fun w => w.wishlist_id == id)

/-- `Wishlist.findOne({ where: { wishlist_id, user_id } })`: lookup with the
ownership filter used by the mobile controller. -/
def findOwned (s : Store) (id : Nat) (uid : String) : Option Wishlist :=
  s.wishlists.find? (fun w => w.wishlist_id == id && w.user_id == uid)

/-- The items belonging to a wishlist (the `include: items` association). -/
def itemsOf (s : Store) (wid : Nat) : List WishlistItem :=
  s.items.filter (fun it => it.wishlist_id == wid)

/-- `wishlist.update({...})`: an UPDATE of the row with the given primary key,
writing the fields `f` sets. -/
def updateRow (s : Store) (id : Nat) (f : Wishlist → Wishlist) : Store :=
  { s with wishlists :=
      s.wishlists.map (fun w => if w.wishlist_id == id then f w else w) }

/-- `Wishlist.create({...})`: INSERT of a new wishlist row. -/
def insertWishlist (s : Store) (w : Wishlist) : Store :=
  { s with wishlists := s.wishlists ++ [w] }

/-- INSERT of already-built item rows. -/
def insertItems (s : Store) (rows : List WishlistItem) : Store :=
  { s with items := s.items ++ rows }

/-- `WishlistItem.destroy({ where: { wishlist_id } })`. -/
def destroyItems (s : Store) (wid : Nat) : Store :=
  { s with items := s.items.filter (fun it => !(it.wishlist_id == wid)) }

/-- `expiresAt.setHours(getHours() + h)` on a millisecond clock. -/
def addHours (t h : Nat) : Nat := t + h * 3600000

/-- The outcome of the `Promise.all` of `WishlistItem.create` calls: given the
per-insert success mask `oks` (missing entries default to success), the rows
that were persisted and whether every insert succeeded. -/
def insertItemRows (wid : Nat) : List ItemInput → List Bool → List WishlistItem × Bool
  | [], _ => ([], true)
  | it :: rest, oks =>
      match insertItemRows wid rest oks.tail with
      | (tl, restOk) =>
          if oks.headD true then (mkItem wid it :: tl, restOk) else (tl, false)

/-! ## Embedded controller operations

Each operation takes its request inputs, the nondeterministic environment
(current time `now`, generated ids/tokens, the per-insert success mask) and
the store, and returns the HTTP response together with the new store.
Absent or empty request strings are both JS-falsy and are modelled by `""`. -/

/-- `mobile.controller createWishlist` (POST /api/mobile/wishlists):
validates `user_id` and `items`, computes `expires_at = now + TTL hours`,
inserts the wishlist row with the generated token, then runs the
`Promise.all` of item inserts (`oks` is the success mask; all-successful when
`oks = []`). No transaction encloses the inserts: the wishlist row stays in
the store even when an item insert fails, in which case the error propagates
as `serverError`. -/
def createWishlist (user_id : String) (items : List ItemInput)
    (metadata : Option Metadata) (expirationHours now newId : Nat)
    (token : String) (oks : List Bool) (s : Store) : Resp × Store :=
  if user_id = "" then (.validationErr "user_id is required", s)
  else if items.isEmpty then
    (.validationErr "items array is required and must not be empty", s)
  else
    match insertItemRows newId items oks with
    | (rows, allOk) =>
        match insertItems (insertWishlist s
            { wishlist_id := newId
              user_id := user_id
              status := .ACTIVE
              source := "MOBILE_APP"
              qr_code_token := token
              qr_code_used_at := none
              processed_at := none
              processed_by := none
              expires_at := addHours now expirationHours
              metadata := metadata.getD []
              created_at := now }) rows with
        | s1 =>
            if allOk then (.created (findByPk s1 newId) (itemsOf s1 newId), s1)
            else (.serverError, s1)

/-- `mobile.controller getWishlist` (GET /api/mobile/wishlists/:id): the
owner-filtered read. It performs no expiry check and no write: the row is
returned exactly as stored. -/
def getWishlist (wishlistId : Nat) (user_id : String) (s : Store) :
    Resp × Store :=
  if user_id = "" then
    (.validationErr "user_id query parameter is required", s)
  else
    match findOwned s wishlistId user_id with
    | none => (.notFound "Wishlist not found or access denied", s)
    | some w => (.okWishlist (some w) (itemsOf s wishlistId), s)

/-- `mobile.controller updateWishlist` (PUT /api/mobile/wishlists/:id):
rejects unless the status is ACTIVE; a provided metadata object is written
wholesale (`wishlist.update({ metadata })`, no merge with the stored map); a
provided item list replaces the item set (destroy all, insert new). -/
def updateWishlist (wishlistId : Nat) (user_id : String)
    (items : Option (List ItemInput)) (metadata : Option Metadata)
    (s : Store) : Resp × Store :=
  if user_id = "" then (.validationErr "user_id is required", s)
  else
    match findOwned s wishlistId user_id with
    | none => (.notFound "Wishlist not found or access denied", s)
    | some w =>
        if w.status ≠ Status.ACTIVE then (.invalidState w.status, s)
        else
          match (match metadata with
                 | some m => updateRow s wishlistId (fun x => { x with metadata := m })
                 | none => s) with
          | s1 =>
              match (match items with
                     | some its =>
                         insertItems (destroyItems s1 wishlistId)
                           (its.map (mkItem wishlistId))
                     | none => s1) with
              | s2 =>
                  (.okWishlist (findByPk s2 wishlistId) (itemsOf s2 wishlistId), s2)

/-- `mobile.controller deleteWishlist` (DELETE /api/mobile/wishlists/:id):
sets the status to CANCELLED (no physical deletion). -/
def deleteWishlist (wishlistId : Nat) (user_id : String) (s : Store) :
    Resp × Store :=
  if user_id = "" then
    (.validationErr "user_id query parameter is required", s)
  else
    match findOwned s wishlistId user_id with
    | none => (.notFound "Wishlist not found or access denied", s)
    | some _ =>
        (.okDeleted,
         updateRow s wishlistId (fun x => { x with status := Status.CANCELLED }))

/-- `mobile.controller generateQRCode` (POST /api/mobile/wishlists/:id/qr):
status must be ACTIVE; an expired wishlist is materialized as EXPIRED and
410 returned; otherwise the existing token is returned with the item summary
— no write happens and no new token is ever minted. -/
def generateQRCode (wishlistId : Nat) (user_id : String) (now : Nat)
    (s : Store) : Resp × Store :=
  if user_id = "" then (.validationErr "user_id is required", s)
  else
    match findOwned s wishlistId user_id with
    | none => (.notFound "Wishlist not found or access denied", s)
    | some w =>
        if w.status ≠ Status.ACTIVE then (.invalidState w.status, s)
        else if now > w.expires_at then
          (.gone none,
           updateRow s wishlistId (fun x => { x with status := Status.EXPIRED }))
        else
          (.okQR w.qr_code_token w.expires_at
            ((itemsOf s wishlistId).map
              (fun it => (it.shopify_variant_id, it.quantity))), s)

/-- `pos.controller fetchWishlist` (POST /api/pos/wishlists/:id/fetch), the
redemption operation, checks in source order: missing token, not found,
token mismatch, already used (409 with the stored `used_at`), expired
(materialize EXPIRED, 410), wrong status, then the success write
`wishlist.update({ qr_code_used_at: now, status: PROCESSING })` — a plain
unconditional UPDATE of the row (no `WHERE qr_code_used_at IS NULL` guard). -/
def fetchWishlist (wishlistId : Nat) (qr_token : String) (now : Nat)
    (s : Store) : Resp × Store :=
  if qr_token = "" then (.validationErr "qr_token is required", s)
  else
    match findByPk s wishlistId with
    | none => (.notFound "Wishlist not found", s)
    | some w =>
        if w.qr_code_token ≠ qr_token then
          (.forbidden "Invalid QR code token", s)
        else
          match w.qr_code_used_at with
          | some t => (.conflictUsed t, s)
          | none =>
              if now > w.expires_at then
                (.gone (some w.expires_at),
                 updateRow s wishlistId
                   (fun x => { x with status := Status.EXPIRED }))
              else if w.status ≠ Status.ACTIVE then (.invalidState w.status, s)
              else
                match updateRow s wishlistId
                    (fun x => { x with qr_code_used_at := some now
                                       status := Status.PROCESSING }) with
                | s1 => (.okFetched (findByPk s1 wishlistId) (itemsOf s1 wishlistId), s1)

/-- The read phase of `fetchWishlist`: the `findByPk` that loads the row into
the request handler. -/
def fetchWishlistRead (wishlistId : Nat) (s : Store) : Option Wishlist :=
  findByPk s wishlistId

/-- The remainder of `fetchWishlist` after its read: all checks run against
the snapshot `snap` the handler read earlier, while the success write is the
same unconditional UPDATE, applied to whatever the store holds now. Splitting
the operation at this point models two concurrent handlers interleaving their
store accesses. -/
def fetchWishlistWrite (wishlistId : Nat) (qr_token : String) (now : Nat)
    (snap : Option Wishlist) (s : Store) : Resp × Store :=
  if qr_token = "" then (.validationErr "qr_token is required", s)
  else
    match snap with
    | none => (.notFound "Wishlist not found", s)
    | some w =>
        if w.qr_code_token ≠ qr_token then
          (.forbidden "Invalid QR code token", s)
        else
          match w.qr_code_used_at with
          | some t => (.conflictUsed t, s)
          | none =>
              if now > w.expires_at then
                (.gone (some w.expires_at),
                 updateRow s wishlistId
                   (fun x => { x with status := Status.EXPIRED }))
              else if w.status ≠ Status.ACTIVE then (.invalidState w.status, s)
              else
                match updateRow s wishlistId
                    (fun x => { x with qr_code_used_at := some now
                                       status := Status.PROCESSING }) with
                | s1 => (.okFetched (findByPk s1 wishlistId) (itemsOf s1 wishlistId), s1)

/-- `pos.controller completeWishlist` (POST /api/pos/wishlists/:id/complete):
legal only from PROCESSING; merges `shopify_order_id` (if truthy) into a
spread copy of the stored metadata; `processed_by || 'POS'`. -/
def completeWishlist (wishlistId : Nat) (processed_by shopify_order_id : String)
    (now : Nat) (s : Store) : Resp × Store :=
  match findByPk s wishlistId with
  | none => (.notFound "Wishlist not found", s)
  | some w =>
      if w.status ≠ Status.PROCESSING then (.invalidState w.status, s)
      else
        match (if shopify_order_id = "" then w.metadata
               else mset w.metadata "shopify_order_id" shopify_order_id) with
        | md =>
            (.okCompleted
              { w with status := Status.COMPLETED
                       processed_at := some now
                       processed_by :=
                         some (if processed_by = "" then "POS" else processed_by)
                       metadata := md },
             updateRow s wishlistId
               (fun x => { x with status := Status.COMPLETED
                                  processed_at := some now
                                  processed_by :=
                                    some (if processed_by = "" then "POS"
                                          else processed_by)
                                  metadata := md }))

/-- `pos.controller cancelWishlist` (POST /api/pos/wishlists/:id/cancel):
no status precondition; merges the cancellation reason (if truthy) into a
spread copy of the stored metadata and sets CANCELLED. -/
def cancelWishlist (wishlistId : Nat) (reason : String) (s : Store) :
    Resp × Store :=
  match findByPk s wishlistId with
  | none => (.notFound "Wishlist not found", s)
  | some w =>
      match (if reason = "" then w.metadata
             else mset w.metadata "cancellation_reason" reason) with
      | md =>
          (.okCancelled { w with status := Status.CANCELLED, metadata := md },
           updateRow s wishlistId
             (fun x => { x with status := Status.CANCELLED, metadata := md }))

/-- `pos.controller getWishlistStatus` (GET /api/pos/wishlists/:id/status):
a pure read returning the four derived fields; `expired` is computed by
comparing `now` to `expires_at` and nothing is written back. -/
def getWishlistStatus (wishlistId : Nat) (now : Nat) (s : Store) :
    Resp × Store :=
  match findByPk s wishlistId with
  | none => (.notFound "Wishlist not found", s)
  | some w =>
      (.okStatus w.status w.qr_code_used_at.isSome w.processed_at.isSome
        (decide (now > w.expires_at)), s)

/-- `wishlist.controller expireWishlist` (POST /api/wishlists/:id/expire):
the manual expire. No status precondition — it sets EXPIRED from any prior
status (404 only when the wishlist is missing) and answers 200 with the
updated row. -/
def expireWishlist (wishlistId : Nat) (s : Store) : Resp × Store :=
  match findByPk s wishlistId with
  | none => (.notFound "Wishlist not found", s)
  | some w =>
      (.okExpired { w with status := Status.EXPIRED },
       updateRow s wishlistId (fun x => { x with status := Status.EXPIRED }))

/-- `wishlist.controller getWishlist` (GET /api/wishlists/:id): the
unfiltered read of the general controller (named `getWishlistById` here
because the mobile controller's read already carries the source name). No
owner filter, no expiry check, no write. -/
def getWishlistById (wishlistId : Nat) (s : Store) : Resp × Store :=
  match findByPk s wishlistId with
  | none => (.notFound "Wishlist not found", s)
  | some w => (.okWishlist (some w) (itemsOf s wishlistId), s)

/-- The wire name of a status, as stored by the ENUM column and compared by
a `where.status` filter. -/
def Status.toStr : Status → String
  | .ACTIVE => "ACTIVE"
  | .PROCESSING => "PROCESSING"
  | .COMPLETED => "COMPLETED"
  | .CANCELLED => "CANCELLED"
  | .EXPIRED => "EXPIRED"

/-- The `where` clause `searchWishlists` builds: each filter is added only
when the query parameter is JS-truthy (present and non-empty). -/
def matchesQuery (u st so : Option String) (w : Wishlist) : Bool :=
  (match u with
   | some x => if x = "" then true else w.user_id == x
   | none => true)
  && (match st with
      | some x => if x = "" then true else Status.toStr w.status == x
      | none => true)
  && (match so with
      | some x => if x = "" then true else w.source == x
      | none => true)

/-- Stable insertion into a list ordered by descending `created_at`
(the `ORDER BY created_at DESC` of the search). -/
def insertByCreatedDesc (w : Wishlist) : List Wishlist → List Wishlist
  | [] => [w]
  | x :: xs =>
      if x.created_at < w.created_at then w :: x :: xs
      else x :: insertByCreatedDesc w xs

/-- Stable sort by descending `created_at`. -/
def sortByCreatedDesc : List Wishlist → List Wishlist
  | [] => []
  | x :: xs => insertByCreatedDesc x (sortByCreatedDesc xs)

/-- `wishlist.controller searchWishlists` (GET /api/wishlists): a pure read.
`findAndCountAll` with the optional filters, newest-created first, then
OFFSET/LIMIT; `total` is the full match count. (The per-row items
association is the store's `itemsOf`.) -/
def searchWishlists (u st so : Option String) (limit offset : Nat)
    (s : Store) : Resp × Store :=
  match s.wishlists.filter (matchesQuery u st so) with
  | rows =>
      (.okSearch (((sortByCreatedDesc rows).drop offset).take limit)
        rows.length limit offset, s)

/-- `wishlist.controller updateWishlistItems` (PUT /api/wishlists/:id/items):
no owner filter and no metadata handling; legal only from ACTIVE; the item
set is replaced wholesale (destroy all, insert the new set). The body's
`items` is read without validation — a request without it would throw on
`.map` — so the input is modelled as a required list. -/
def updateWishlistItems (wishlistId : Nat) (items : List ItemInput)
    (s : Store) : Resp × Store :=
  match findByPk s wishlistId with
  | none => (.notFound "Wishlist not found", s)
  | some w =>
      if w.status ≠ Status.ACTIVE then (.invalidState w.status, s)
      else
        match insertItems (destroyItems s wishlistId)
            (items.map (mkItem wishlistId)) with
        | s1 => (.okWishlist (findByPk s1 wishlistId) (itemsOf s1 wishlistId), s1)

/-- `wishlist.controller cancelWishlist` (DELETE /api/wishlists/:id), named
`cancelWishlistGeneral` because the POS controller's cancel already carries
the source name: sets CANCELLED from any prior status; unlike the POS
cancel it takes no reason and leaves metadata untouched. -/
def cancelWishlistGeneral (wishlistId : Nat) (s : Store) : Resp × Store :=
  match findByPk s wishlistId with
  | none => (.notFound "Wishlist not found", s)
  | some w =>
      (.okCancelled { w with status := Status.CANCELLED },
       updateRow s wishlistId (fun x => { x with status := Status.CANCELLED }))

/-- `Idempotency.findOne({ where: { idempotency_key } })`. -/
def findIdem (s : Store) (key : String) : Option IdemRecord :=
  s.idems.find? (fun r => r.idempotency_key == key)

/-- The early-return branch of the idempotency check in
`wishlist.controller createWishlist`: a COMPLETED record answers 200 with
its cached `response_data`, a PROCESSING record answers 409; a FAILED
record (and no record, and no key) falls through to the create path. -/
def earlyIdemResp (key : Option String) (s : Store) : Option Resp :=
  match key with
  | none => none
  | some k =>
      match findIdem s k with
      | none => none
      | some r =>
          match r.status with
          | .COMPLETED => some (.okReplay r.response_data)
          | .PROCESSING => some .conflictKey
          | .FAILED => none

/-- `Idempotency.create({ idempotency_key, ..., status: PROCESSING })`: an
INSERT subject to the unique constraint on `idempotency_key` — it fails
(`none`, an exception the controller propagates as a 500) exactly when a
row with the key already exists; the constraint check and the insert are
one atomic store operation. -/
def idemCreate (k : String) (s : Store) : Option Store :=
  match findIdem s k with
  | some _ => none
  | none =>
      some { s with idems := s.idems ++
        [{ idempotency_key := k
           wishlist_id := none
           operation_type := "CREATE_WISHLIST"
           response_data := none
           status := .PROCESSING }] }

/-- The `if (idempotencyKey) { Idempotency.create(...) }` step: no key means
no ledger write; with a key the constrained insert runs. -/
def ledgerInsert (key : Option String) (s : Store) : Option Store :=
  match key with
  | none => some s
  | some k => idemCreate k s

/-- `idempotencyRecord.update({ wishlist_id, response_data,
status: COMPLETED })` in `wishlist.controller createWishlist`: marks the
record (addressed by its unique key) COMPLETED and stores the response body
for replay. -/
def completeIdem (key : String) (body : CachedBody) (wid : Option Nat)
    (s : Store) : Store :=
  { s with idems := s.idems.map (fun r =>
      if r.idempotency_key == key then
        { r with status := .COMPLETED
                 response_data := some body
                 wishlist_id := wid }
      else r) }

/-- The `if (idempotencyRecord) { ... update ... }` step after a successful
create: completes the ledger record when a key was supplied. -/
def completeLedger (key : Option String) (body : CachedBody) (nid : Nat)
    (s : Store) : Store :=
  match key with
  | none => s
  | some k => completeIdem k body (some nid) s

/-- Item row builder of the general create: identical to `mkItem` except
`product_title: item.product_title || item.title || 'Unknown Product'`. -/
def mkItemG (wid : Nat) (it : ItemInput) : WishlistItem :=
  { mkItem wid it with
      product_title :=
        some (jsOrD (jsOr it.product_title it.title) "Unknown Product") }

/-- The `Promise.all` of the general create's item inserts, with the same
success-mask semantics as `insertItemRows` but the `mkItemG` builder. -/
def insertItemRowsG (wid : Nat) :
    List ItemInput → List Bool → List WishlistItem × Bool
  | [], _ => ([], true)
  | it :: rest, oks =>
      match insertItemRowsG wid rest oks.tail with
      | (tl, restOk) =>
          if oks.headD true then (mkItemG wid it :: tl, restOk) else (tl, false)

/-- `wishlist.controller createWishlist` (POST /api/wishlists): validation
of `user_id` and `items` comes FIRST; then the idempotency lookup (replay /
conflict / fall-through) keyed by the `idempotency-key` header — `key` is
`some` exactly when the header is JS-truthy (an absent and an empty header
are both falsy, modelled as `none`); then — when a key is supplied — the
PROCESSING ledger INSERT whose unique-constraint failure propagates as
`serverError`;
then the wishlist row (`source` defaults to KIOSK) and the `Promise.all` of
item inserts, the `{ wishlist, qr_code_token }` response, and the ledger
completion. A failed item insert propagates the error with the wishlist row
already persisted and the ledger record still PROCESSING. -/
def createWishlistGeneral (key : Option String) (user_id : String)
    (items : List ItemInput) (source : Option String)
    (metadata : Option Metadata) (expirationHours now newId : Nat)
    (token : String) (oks : List Bool) (s : Store) : Resp × Store :=
  if user_id = "" then (.validationErr "user_id is required", s)
  else if items.isEmpty then
    (.validationErr "items array is required and must not be empty", s)
  else
    match earlyIdemResp key s with
    | some r => (r, s)
    | none =>
        match ledgerInsert key s with
        | none => (.serverError, s)
        | some s1 =>
            match insertItemRowsG newId items oks with
            | (rows, allOk) =>
                match insertItems (insertWishlist s1
                    { wishlist_id := newId
                      user_id := user_id
                      status := .ACTIVE
                      source := source.getD "KIOSK"
                      qr_code_token := token
                      qr_code_used_at := none
                      processed_at := none
                      processed_by := none
                      expires_at := addHours now expirationHours
                      metadata := metadata.getD []
                      created_at := now }) rows with
                | s2 =>
                    if allOk then
                      (.createdG (findByPk s2 newId) (itemsOf s2 newId) token,
                       completeLedger key
                         ⟨findByPk s2 newId, itemsOf s2 newId, token⟩ newId s2)
                    else (.serverError, s2)

/-! ## Reachability

`Step s s'` holds when one embedded operation, with arbitrary request inputs
and environment, turns store `s` into store `s'`; `Reach s` holds for every
store reachable from the empty store by such operations. -/

/-- One operation of the service, applied with arbitrary inputs. -/
inductive Step : Store → Store → Prop where
  | create (uid : String) (its : List ItemInput) (md : Option Metadata)
      (eh now nid : Nat) (tok : String) (oks : List Bool) (s : Store) :
      Step s (createWishlist uid its md eh now nid tok oks s).2
  | getOne (wid : Nat) (uid : String) (s : Store) :
      Step s (getWishlist wid uid s).2
  | updateItems (wid : Nat) (uid : String) (its : Option (List ItemInput))
      (md : Option Metadata) (s : Store) :
      Step s (updateWishlist wid uid its md s).2
  | del (wid : Nat) (uid : String) (s : Store) :
      Step s (deleteWishlist wid uid s).2
  | genQR (wid : Nat) (uid : String) (now : Nat) (s : Store) :
      Step s (generateQRCode wid uid now s).2
  | redeem (wid : Nat) (tok : String) (now : Nat) (s : Store) :
      Step s (fetchWishlist wid tok now s).2
  | markDone (wid : Nat) (pb oid : String) (now : Nat) (s : Store) :
      Step s (completeWishlist wid pb oid now s).2
  | cancel (wid : Nat) (r : String) (s : Store) :
      Step s (cancelWishlist wid r s).2
  | statusQuery (wid : Nat) (now : Nat) (s : Store) :
      Step s (getWishlistStatus wid now s).2
  | expire (wid : Nat) (s : Store) :
      Step s (expireWishlist wid s).2
  | createG (k : Option String) (uid : String) (its : List ItemInput)
      (so : Option String) (md : Option Metadata) (eh now nid : Nat)
      (tok : String) (oks : List Bool) (s : Store) :
      Step s (createWishlistGeneral k uid its so md eh now nid tok oks s).2
  | getById (wid : Nat) (s : Store) : Step s (getWishlistById wid s).2
  | search (u st so : Option String) (limit offset : Nat) (s : Store) :
      Step s (searchWishlists u st so limit offset s).2
  | updateItemsG (wid : Nat) (its : List ItemInput) (s : Store) :
      Step s (updateWishlistItems wid its s).2
  | cancelG (wid : Nat) (s : Store) : Step s (cancelWishlistGeneral wid s).2

/-- Stores reachable from the empty store through service operations. -/
inductive Reach : Store → Prop where
  | init : Reach emptyStore
  | step {s s' : Store} : Reach s → Step s s' → Reach s'

/-! ## Concrete fixtures (used by witnesses and counterexamples) -/

/-- A caller item payload. -/
def itemA : ItemInput :=
  { variant_id := some "v1", product_id := some "p1", quantity := some 2,
    product_title := some "Beer", price := some "15.99",
    currency := some "HKD" }

/-- An ACTIVE wishlist row with an unused token, expiring at t = 100. -/
def rowActive : Wishlist :=
  { wishlist_id := 1, user_id := "u1", status := .ACTIVE,
    source := "MOBILE_APP", qr_code_token := "tok1", qr_code_used_at := none,
    processed_at := none, processed_by := none, expires_at := 100,
    metadata := [("kiosk", "K1")], created_at := 0 }

/-- A store holding `rowActive` and its single item. -/
def storeActive : Store :=
  { wishlists := [rowActive], items := [mkItem 1 itemA], idems := [] }

/-- The same wishlist after a redemption at t = 5. -/
def rowProcessing : Wishlist :=
  { rowActive with status := .PROCESSING, qr_code_used_at := some 5 }

/-- A store holding `rowProcessing`. -/
def storeProcessing : Store :=
  { wishlists := [rowProcessing], items := [mkItem 1 itemA], idems := [] }

/-- The wishlist in a terminal state. -/
def rowCompleted : Wishlist := { rowActive with status := .COMPLETED }

/-- A store holding `rowCompleted`. -/
def storeCompleted : Store :=
  { wishlists := [rowCompleted], items := [mkItem 1 itemA], idems := [] }

/-- An ACTIVE row whose `expires_at = 5` already lies in the past at t = 10. -/
def rowStale : Wishlist := { rowActive with expires_at := 5 }

/-- A store holding only `rowStale`. -/
def storeStale : Store := { wishlists := [rowStale], items := [], idems := [] }

/-- A COMPLETED idempotency record for key `"key1"` with a cached body. -/
def idemCompleted : IdemRecord :=
  { idempotency_key := "key1", wishlist_id := some 1,
    operation_type := "CREATE_WISHLIST",
    response_data := some ⟨some rowActive, [mkItem 1 itemA], "tok1"⟩,
    status := .COMPLETED }

/-- A PROCESSING (in-flight) idempotency record for key `"key2"`. -/
def idemInflight : IdemRecord :=
  { idempotency_key := "key2", wishlist_id := none,
    operation_type := "CREATE_WISHLIST", response_data := none,
    status := .PROCESSING }

/-- A store holding both idempotency records and `rowActive`. -/
def storeIdem : Store :=
  { wishlists := [rowActive], items := [],
    idems := [idemCompleted, idemInflight] }

/-- The wishlist row `createWishlist` inserts, as a function of the request
and environment. -/
def freshRow (uid : String) (md : Option Metadata) (eh now nid : Nat)
    (tok : String) : Wishlist :=
  { wishlist_id := nid, user_id := uid, status := .ACTIVE,
    source := "MOBILE_APP", qr_code_token := tok, qr_code_used_at := none,
    processed_at := none, processed_by := none,
    expires_at := addHours now eh, metadata := md.getD [], created_at := now }

/-- First phase of the redemption race: both handlers snapshot the row. -/
def raceSnap : Option Wishlist := fetchWishlistRead 1 storeActive

/-- Handler one runs its check-and-write at t = 10 against its snapshot. -/
def raceFirst : Resp × Store := fetchWishlistWrite 1 "tok1" 10 raceSnap storeActive

/-- Handler two runs its check-and-write at t = 11 against the same snapshot,
on the store handler one already wrote. -/
def raceSecond : Resp × Store :=
  fetchWishlistWrite 1 "tok1" 11 raceSnap raceFirst.2

/-! ## Helper lemmas about the store primitives -/

theorem find?_map_of_pred {α : Type} (p : α → Bool) (g : α → α)
    (hp : ∀ a, p (g a) = p a) :
    ∀ l : List α, (l.map g).find? p = (l.find? p).map g := by
  intro l
  induction l with
  | nil => rfl
  | cons a l ih =>
      simp only [List.map_cons, List.find?, hp a]
      cases h : p a <;> simp [ih]

theorem find?_append_some {α : Type} {p : α → Bool} {l₁ : List α} {a : α}
    (l₂ : List α) (h : l₁.find? p = some a) :
    (l₁ ++ l₂).find? p = some a := by
  rw [List.find?_append, h]
  rfl

/-- An UPDATE by one primary key, with a field writer that does not touch the
key, commutes with lookup: the looked-up row is the written row when the keys
match and the old row otherwise. -/
theorem findByPk_updateRow (s : Store) (id id' : Nat) (f : Wishlist → Wishlist)
    (hf : ∀ x, (f x).wishlist_id = x.wishlist_id) :
    findByPk (updateRow s id f) id' =
      (findByPk s id').map (fun w => if w.wishlist_id == id then f w else w) := by
  unfold findByPk updateRow
  apply find?_map_of_pred
  intro a
  by_cases h : a.wishlist_id == id
  · simp [h, hf a]
  · simp [h]

theorem findByPk_updateRow_found {s : Store} {id : Nat} {w : Wishlist}
    (f : Wishlist → Wishlist) (hf : ∀ x, (f x).wishlist_id = x.wishlist_id)
    (h : findByPk s id = some w) :
    findByPk (updateRow s id f) id = some (f w) := by
  have h' : s.wishlists.find? (fun x => x.wishlist_id == id) = some w := h
  have hw : w.wishlist_id = id := by simpa using List.find?_some h'
  rw [findByPk_updateRow s id id f hf, h]
  simp [hw]

theorem itemsOf_updateRow (s : Store) (id : Nat) (f : Wishlist → Wishlist)
    (wid : Nat) : itemsOf (updateRow s id f) wid = itemsOf s wid := rfl

theorem mget_mset_self (m : Metadata) (k v : String) :
    mget (mset m k v) k = some v := by
  induction m with
  | nil => simp [mset, mget]
  | cons a rest ih =>
      obtain ⟨a1, a2⟩ := a
      by_cases h : a1 = k
      · subst h
        simp [mset, mget]
      · simp only [mset, if_neg h]
        simpa [mget, h] using ih

theorem mget_mset_ne (m : Metadata) (k v k' : String) (h : k' ≠ k) :
    mget (mset m k v) k' = mget m k' := by
  induction m with
  | nil =>
      have hne : ¬ k = k' := fun hh => h hh.symm
      simp [mset, mget, hne]
  | cons a rest ih =>
      obtain ⟨a1, a2⟩ := a
      by_cases ha : a1 = k
      · subst ha
        have hne : ¬ a1 = k' := fun hh => h hh.symm
        simp [mset, mget, hne]
      · simp only [mset, if_neg ha]
        by_cases ha' : a1 = k'
        · simp [mget, ha']
        · simpa [mget, ha'] using ih

theorem insertItemRows_nil_mask (wid : Nat) (its : List ItemInput) :
    insertItemRows wid its [] = (its.map (mkItem wid), true) := by
  induction its with
  | nil => rfl
  | cons it rest ih => simp [insertItemRows, ih]

/-! ## Row-wise invariants and their preservation -/

/-- Per-row form of the spec invariant: a used QR token forbids ACTIVE. -/
abbrev NoUsedActive (w : Wishlist) : Prop :=
  w.qr_code_used_at ≠ none → w.status ≠ Status.ACTIVE

/-- Store-wide form: every persisted wishlist row satisfies `NoUsedActive`. -/
abbrev UsedImpliesNotActive (s : Store) : Prop :=
  ∀ w ∈ s.wishlists, NoUsedActive w

/-- Tokens are never regenerated: every row id present before an operation is
still present afterwards with the identical `qr_code_token`. -/
abbrev TokenPreserved (s s' : Store) : Prop :=
  ∀ id w, findByPk s id = some w →
    ∃ w', findByPk s' id = some w' ∧ w'.qr_code_token = w.qr_code_token

theorem rowInv_insert {P : Wishlist → Prop} {s : Store} {w : Wishlist}
    (rows : List WishlistItem)
    (hs : ∀ x ∈ s.wishlists, P x) (hw : P w) :
    ∀ x ∈ (insertItems (insertWishlist s w) rows).wishlists, P x := by
  intro x hx
  simp only [insertItems, insertWishlist, List.mem_append,
    List.mem_singleton] at hx
  rcases hx with hx | hx
  · exact hs x hx
  · subst hx
    exact hw

theorem rowInv_updateRow {P : Wishlist → Prop} {s : Store} {id : Nat}
    {f : Wishlist → Wishlist}
    (hs : ∀ x ∈ s.wishlists, P x) (hf : ∀ x, P x → P (f x)) :
    ∀ x ∈ (updateRow s id f).wishlists, P x := by
  intro x hx
  simp only [updateRow, List.mem_map] at hx
  obtain ⟨y, hy, hxy⟩ := hx
  subst hxy
  split
  · exact hf y (hs y hy)
  · exact hs y hy

theorem usedInv_of_wishlists_eq {s s' : Store}
    (h : s'.wishlists = s.wishlists) (hs : UsedImpliesNotActive s) :
    UsedImpliesNotActive s' := by
  intro w hw
  exact hs w (by rw [← h]; exact hw)

theorem tokenPreserved_refl (s : Store) : TokenPreserved s s :=
  fun _ w h => ⟨w, h, rfl⟩

theorem tokenPreserved_of_wishlists_eq {s s' : Store}
    (h : s'.wishlists = s.wishlists) : TokenPreserved s s' := by
  intro id w hw
  refine ⟨w, ?_, rfl⟩
  show s'.wishlists.find? (fun x => x.wishlist_id == id) = some w
  rw [h]
  exact hw

theorem tokenPreserved_trans {a b c : Store} (h₁ : TokenPreserved a b)
    (h₂ : TokenPreserved b c) : TokenPreserved a c := by
  intro id w hw
  obtain ⟨w1, hw1, ht1⟩ := h₁ id w hw
  obtain ⟨w2, hw2, ht2⟩ := h₂ id w1 hw1
  exact ⟨w2, hw2, ht2.trans ht1⟩

theorem tokenPreserved_updateRow (s : Store) (id : Nat)
    (f : Wishlist → Wishlist)
    (hid : ∀ x, (f x).wishlist_id = x.wishlist_id)
    (htok : ∀ x, (f x).qr_code_token = x.qr_code_token) :
    TokenPreserved s (updateRow s id f) := by
  intro id' w h
  rw [findByPk_updateRow s id id' f hid, h]
  by_cases hc : w.wishlist_id = id
  · exact ⟨f w, by simp [hc], htok w⟩
  · exact ⟨w, by simp [hc], rfl⟩

theorem tokenPreserved_insert (s : Store) (w0 : Wishlist)
    (rows : List WishlistItem) :
    TokenPreserved s (insertItems (insertWishlist s w0) rows) := by
  intro id w h
  exact ⟨w, find?_append_some [w0] h, rfl⟩

theorem ledgerInsert_wishlists {key : Option String} {s s1 : Store}
    (h : ledgerInsert key s = some s1) : s1.wishlists = s.wishlists := by
  cases key with
  | none =>
      have he : s = s1 := Option.some.inj h
      rw [← he]
  | some k =>
      have h' : idemCreate k s = some s1 := h
      unfold idemCreate at h'
      cases hf : findIdem s k with
      | some r =>
          rw [hf] at h'
          cases h'
      | none =>
          rw [hf] at h'
          have he := Option.some.inj h'
          rw [← he]

theorem completeIdem_wishlists (k : String) (b : CachedBody) (wid : Option Nat)
    (s : Store) : (completeIdem k b wid s).wishlists = s.wishlists := rfl

theorem completeLedger_wishlists (key : Option String) (b : CachedBody)
    (nid : Nat) (s : Store) :
    (completeLedger key b nid s).wishlists = s.wishlists := by
  cases key <;> rfl

/-! Preservation of `UsedImpliesNotActive` by every operation. -/

theorem usedInv_createWishlist (uid : String) (its : List ItemInput)
    (md : Option Metadata) (eh now nid : Nat) (tok : String) (oks : List Bool)
    (s : Store) (hs : UsedImpliesNotActive s) :
    UsedImpliesNotActive (createWishlist uid its md eh now nid tok oks s).2 := by
  unfold createWishlist
  split
  · exact hs
  · split
    · exact hs
    · split
      split
      · exact rowInv_insert _ hs (by simp [NoUsedActive])
      · exact rowInv_insert _ hs (by simp [NoUsedActive])

theorem usedInv_getWishlist (wid : Nat) (uid : String) (s : Store)
    (hs : UsedImpliesNotActive s) :
    UsedImpliesNotActive (getWishlist wid uid s).2 := by
  unfold getWishlist
  split
  · exact hs
  · split <;> exact hs

theorem usedInv_updateWishlist (wid : Nat) (uid : String)
    (its : Option (List ItemInput)) (md : Option Metadata) (s : Store)
    (hs : UsedImpliesNotActive s) :
    UsedImpliesNotActive (updateWishlist wid uid its md s).2 := by
  unfold updateWishlist
  split
  · exact hs
  · split
    · exact hs
    · split
      · exact hs
      · rcases md with - | m <;> rcases its with - | l
        · exact hs
        · exact hs
        · exact rowInv_updateRow hs (fun x hx => hx)
        · exact rowInv_updateRow hs (fun x hx => hx)

theorem usedInv_deleteWishlist (wid : Nat) (uid : String) (s : Store)
    (hs : UsedImpliesNotActive s) :
    UsedImpliesNotActive (deleteWishlist wid uid s).2 := by
  unfold deleteWishlist
  split
  · exact hs
  · split
    · exact hs
    · exact rowInv_updateRow hs (fun x _ => by simp [NoUsedActive])

theorem usedInv_generateQRCode (wid : Nat) (uid : String) (now : Nat)
    (s : Store) (hs : UsedImpliesNotActive s) :
    UsedImpliesNotActive (generateQRCode wid uid now s).2 := by
  unfold generateQRCode
  split
  · exact hs
  · split
    · exact hs
    · split
      · exact hs
      · split
        · exact rowInv_updateRow hs (fun x _ => by simp [NoUsedActive])
        · exact hs

theorem usedInv_fetchWishlist (wid : Nat) (tok : String) (now : Nat)
    (s : Store) (hs : UsedImpliesNotActive s) :
    UsedImpliesNotActive (fetchWishlist wid tok now s).2 := by
  unfold fetchWishlist
  split
  · exact hs
  · split
    · exact hs
    · split
      · exact hs
      · split
        · exact hs
        · split
          · exact rowInv_updateRow hs (fun x _ => by simp [NoUsedActive])
          · split
            · exact hs
            · exact rowInv_updateRow hs (fun x _ => by simp [NoUsedActive])

theorem usedInv_completeWishlist (wid : Nat) (pb oid : String) (now : Nat)
    (s : Store) (hs : UsedImpliesNotActive s) :
    UsedImpliesNotActive (completeWishlist wid pb oid now s).2 := by
  unfold completeWishlist
  split
  · exact hs
  · split
    · exact hs
    · split <;> exact rowInv_updateRow hs (fun x _ => by simp [NoUsedActive])

theorem usedInv_cancelWishlist (wid : Nat) (r : String) (s : Store)
    (hs : UsedImpliesNotActive s) :
    UsedImpliesNotActive (cancelWishlist wid r s).2 := by
  unfold cancelWishlist
  split
  · exact hs
  · split <;> exact rowInv_updateRow hs (fun x _ => by simp [NoUsedActive])

theorem usedInv_getWishlistStatus (wid : Nat) (now : Nat) (s : Store)
    (hs : UsedImpliesNotActive s) :
    UsedImpliesNotActive (getWishlistStatus wid now s).2 := by
  unfold getWishlistStatus
  split <;> exact hs

theorem usedInv_expireWishlist (wid : Nat) (s : Store)
    (hs : UsedImpliesNotActive s) :
    UsedImpliesNotActive (expireWishlist wid s).2 := by
  unfold expireWishlist
  split
  · exact hs
  · exact rowInv_updateRow hs (fun x _ => by simp [NoUsedActive])

theorem usedInv_getWishlistById (wid : Nat) (s : Store)
    (hs : UsedImpliesNotActive s) :
    UsedImpliesNotActive (getWishlistById wid s).2 := by
  unfold getWishlistById
  split <;> exact hs

theorem usedInv_searchWishlists (u st so : Option String) (limit offset : Nat)
    (s : Store) (hs : UsedImpliesNotActive s) :
    UsedImpliesNotActive (searchWishlists u st so limit offset s).2 := by
  unfold searchWishlists
  exact hs

theorem usedInv_updateWishlistItems (wid : Nat) (its : List ItemInput)
    (s : Store) (hs : UsedImpliesNotActive s) :
    UsedImpliesNotActive (updateWishlistItems wid its s).2 := by
  unfold updateWishlistItems
  split
  · exact hs
  · split
    · exact hs
    · exact hs

theorem usedInv_cancelWishlistGeneral (wid : Nat) (s : Store)
    (hs : UsedImpliesNotActive s) :
    UsedImpliesNotActive (cancelWishlistGeneral wid s).2 := by
  unfold cancelWishlistGeneral
  split
  · exact hs
  · exact rowInv_updateRow hs (fun x _ => by simp [NoUsedActive])

theorem usedInv_createWishlistGeneral (k : Option String) (uid : String)
    (its : List ItemInput) (so : Option String) (md : Option Metadata)
    (eh now nid : Nat) (tok : String) (oks : List Bool) (s : Store)
    (hs : UsedImpliesNotActive s) :
    UsedImpliesNotActive
      (createWishlistGeneral k uid its so md eh now nid tok oks s).2 := by
  unfold createWishlistGeneral
  split
  · exact hs
  · split
    · exact hs
    · split
      · exact hs
      · split
        · exact hs
        · rename_i s1 hL
          have hs1 : UsedImpliesNotActive s1 :=
            usedInv_of_wishlists_eq (ledgerInsert_wishlists hL) hs
          split
          split
          · exact usedInv_of_wishlists_eq (completeLedger_wishlists _ _ _ _)
              (rowInv_insert _ hs1 (by simp [NoUsedActive]))
          · exact rowInv_insert _ hs1 (by simp [NoUsedActive])

/-! Preservation of every row's `qr_code_token` by every operation. -/

theorem tok_createWishlist (uid : String) (its : List ItemInput)
    (md : Option Metadata) (eh now nid : Nat) (tok : String) (oks : List Bool)
    (s : Store) :
    TokenPreserved s (createWishlist uid its md eh now nid tok oks s).2 := by
  unfold createWishlist
  split
  · exact tokenPreserved_refl s
  · split
    · exact tokenPreserved_refl s
    · split
      split
      · exact tokenPreserved_insert s _ _
      · exact tokenPreserved_insert s _ _

theorem tok_getWishlist (wid : Nat) (uid : String) (s : Store) :
    TokenPreserved s (getWishlist wid uid s).2 := by
  unfold getWishlist
  split
  · exact tokenPreserved_refl s
  · split <;> exact tokenPreserved_refl s

theorem tok_updateWishlist (wid : Nat) (uid : String)
    (its : Option (List ItemInput)) (md : Option Metadata) (s : Store) :
    TokenPreserved s (updateWishlist wid uid its md s).2 := by
  unfold updateWishlist
  split
  · exact tokenPreserved_refl s
  · split
    · exact tokenPreserved_refl s
    · split
      · exact tokenPreserved_refl s
      · rcases md with - | m <;> rcases its with - | l
        · exact tokenPreserved_refl s
        · exact tokenPreserved_of_wishlists_eq rfl
        · exact tokenPreserved_updateRow s wid _ (fun x => rfl) (fun x => rfl)
        · refine tokenPreserved_trans
            (b := updateRow s wid (fun x => { x with metadata := m })) ?_ ?_
          · exact tokenPreserved_updateRow s wid _ (fun x => rfl) (fun x => rfl)
          · exact tokenPreserved_of_wishlists_eq rfl

theorem tok_deleteWishlist (wid : Nat) (uid : String) (s : Store) :
    TokenPreserved s (deleteWishlist wid uid s).2 := by
  unfold deleteWishlist
  split
  · exact tokenPreserved_refl s
  · split
    · exact tokenPreserved_refl s
    · exact tokenPreserved_updateRow s wid _ (fun x => rfl) (fun x => rfl)

theorem tok_generateQRCode (wid : Nat) (uid : String) (now : Nat) (s : Store) :
    TokenPreserved s (generateQRCode wid uid now s).2 := by
  unfold generateQRCode
  split
  · exact tokenPreserved_refl s
  · split
    · exact tokenPreserved_refl s
    · split
      · exact tokenPreserved_refl s
      · split
        · exact tokenPreserved_updateRow s wid _ (fun x => rfl) (fun x => rfl)
        · exact tokenPreserved_refl s

theorem tok_fetchWishlist (wid : Nat) (tok : String) (now : Nat) (s : Store) :
    TokenPreserved s (fetchWishlist wid tok now s).2 := by
  unfold fetchWishlist
  split
  · exact tokenPreserved_refl s
  · split
    · exact tokenPreserved_refl s
    · split
      · exact tokenPreserved_refl s
      · split
        · exact tokenPreserved_refl s
        · split
          · exact tokenPreserved_updateRow s wid _ (fun x => rfl) (fun x => rfl)
          · split
            · exact tokenPreserved_refl s
            · exact tokenPreserved_updateRow s wid _ (fun x => rfl) (fun x => rfl)

theorem tok_completeWishlist (wid : Nat) (pb oid : String) (now : Nat)
    (s : Store) : TokenPreserved s (completeWishlist wid pb oid now s).2 := by
  unfold completeWishlist
  split
  · exact tokenPreserved_refl s
  · split
    · exact tokenPreserved_refl s
    · split <;>
        exact tokenPreserved_updateRow s wid _ (fun x => rfl) (fun x => rfl)

theorem tok_cancelWishlist (wid : Nat) (r : String) (s : Store) :
    TokenPreserved s (cancelWishlist wid r s).2 := by
  unfold cancelWishlist
  split
  · exact tokenPreserved_refl s
  · split <;>
      exact tokenPreserved_updateRow s wid _ (fun x => rfl) (fun x => rfl)

theorem tok_getWishlistStatus (wid : Nat) (now : Nat) (s : Store) :
    TokenPreserved s (getWishlistStatus wid now s).2 := by
  unfold getWishlistStatus
  split <;> exact tokenPreserved_refl s

theorem tok_expireWishlist (wid : Nat) (s : Store) :
    TokenPreserved s (expireWishlist wid s).2 := by
  unfold expireWishlist
  split
  · exact tokenPreserved_refl s
  · exact tokenPreserved_updateRow s wid _ (fun x => rfl) (fun x => rfl)

theorem tok_getWishlistById (wid : Nat) (s : Store) :
    TokenPreserved s (getWishlistById wid s).2 := by
  unfold getWishlistById
  split <;> exact tokenPreserved_refl s

theorem tok_searchWishlists (u st so : Option String) (limit offset : Nat)
    (s : Store) : TokenPreserved s (searchWishlists u st so limit offset s).2 := by
  unfold searchWishlists
  exact tokenPreserved_refl s

theorem tok_updateWishlistItems (wid : Nat) (its : List ItemInput)
    (s : Store) : TokenPreserved s (updateWishlistItems wid its s).2 := by
  unfold updateWishlistItems
  split
  · exact tokenPreserved_refl s
  · split
    · exact tokenPreserved_refl s
    · exact tokenPreserved_of_wishlists_eq rfl

theorem tok_cancelWishlistGeneral (wid : Nat) (s : Store) :
    TokenPreserved s (cancelWishlistGeneral wid s).2 := by
  unfold cancelWishlistGeneral
  split
  · exact tokenPreserved_refl s
  · exact tokenPreserved_updateRow s wid _ (fun x => rfl) (fun x => rfl)

theorem tok_createWishlistGeneral (k : Option String) (uid : String)
    (its : List ItemInput) (so : Option String) (md : Option Metadata)
    (eh now nid : Nat) (tok : String) (oks : List Bool) (s : Store) :
    TokenPreserved s
      (createWishlistGeneral k uid its so md eh now nid tok oks s).2 := by
  unfold createWishlistGeneral
  split
  · exact tokenPreserved_refl s
  · split
    · exact tokenPreserved_refl s
    · split
      · exact tokenPreserved_refl s
      · split
        · exact tokenPreserved_refl s
        · rename_i s1 hL
          have ht1 : TokenPreserved s s1 :=
            tokenPreserved_of_wishlists_eq (ledgerInsert_wishlists hL)
          split
          split
          · exact tokenPreserved_trans ht1
              (tokenPreserved_trans (tokenPreserved_insert s1 _ _)
                (tokenPreserved_of_wishlists_eq (completeLedger_wishlists _ _ _ _)))
          · exact tokenPreserved_trans ht1 (tokenPreserved_insert s1 _ _)

/-- Every operation of the service preserves every existing row's token. -/
theorem tok_step {s s' : Store} (h : Step s s') : TokenPreserved s s' := by
  cases h with
  | create uid its md eh now nid tok oks s =>
      exact tok_createWishlist uid its md eh now nid tok oks s
  | getOne wid uid s => exact tok_getWishlist wid uid s
  | updateItems wid uid its md s => exact tok_updateWishlist wid uid its md s
  | del wid uid s => exact tok_deleteWishlist wid uid s
  | genQR wid uid now s => exact tok_generateQRCode wid uid now s
  | redeem wid tok now s => exact tok_fetchWishlist wid tok now s
  | markDone wid pb oid now s => exact tok_completeWishlist wid pb oid now s
  | cancel wid r s => exact tok_cancelWishlist wid r s
  | statusQuery wid now s => exact tok_getWishlistStatus wid now s
  | expire wid s => exact tok_expireWishlist wid s
  | createG k uid its so md eh now nid tok oks s =>
      exact tok_createWishlistGeneral k uid its so md eh now nid tok oks s
  | getById wid s => exact tok_getWishlistById wid s
  | search u st so limit offset s =>
      exact tok_searchWishlists u st so limit offset s
  | updateItemsG wid its s => exact tok_updateWishlistItems wid its s
  | cancelG wid s => exact tok_cancelWishlistGeneral wid s

/-- Every operation of the service preserves the used-token invariant. -/
theorem usedInv_step {s s' : Store} (h : Step s s')
    (hs : UsedImpliesNotActive s) : UsedImpliesNotActive s' := by
  cases h with
  | create uid its md eh now nid tok oks s =>
      exact usedInv_createWishlist uid its md eh now nid tok oks s hs
  | getOne wid uid s => exact usedInv_getWishlist wid uid s hs
  | updateItems wid uid its md s =>
      exact usedInv_updateWishlist wid uid its md s hs
  | del wid uid s => exact usedInv_deleteWishlist wid uid s hs
  | genQR wid uid now s => exact usedInv_generateQRCode wid uid now s hs
  | redeem wid tok now s => exact usedInv_fetchWishlist wid tok now s hs
  | markDone wid pb oid now s =>
      exact usedInv_completeWishlist wid pb oid now s hs
  | cancel wid r s => exact usedInv_cancelWishlist wid r s hs
  | statusQuery wid now s => exact usedInv_getWishlistStatus wid now s hs
  | expire wid s => exact usedInv_expireWishlist wid s hs
  | createG k uid its so md eh now nid tok oks s =>
      exact usedInv_createWishlistGeneral k uid its so md eh now nid tok oks s hs
  | getById wid s => exact usedInv_getWishlistById wid s hs
  | search u st so limit offset s =>
      exact usedInv_searchWishlists u st so limit offset s hs
  | updateItemsG wid its s => exact usedInv_updateWishlistItems wid its s hs
  | cancelG wid s => exact usedInv_cancelWishlistGeneral wid s hs

/-- The sequential redemption operation is exactly its read phase followed by
its check-and-write phase on the unchanged store: the split used to model
interleavings is faithful to the source. -/
theorem fetchWishlist_phases (wid : Nat) (tok : String) (now : Nat)
    (s : Store) :
    fetchWishlist wid tok now s =
      fetchWishlistWrite wid tok now (fetchWishlistRead wid s) s := rfl

/-! ## Claims -/

/-- C1: the claim says redemption races are decided by a single atomic
conditional update (`... WHERE qr_token_used_at IS NULL AND status =
'ACTIVE'`) so that of N concurrent attempts exactly one succeeds, the rest
get ConflictError, and `qr_token_used_at` is set exactly once. The source's
`fetchWishlist` instead does a plain read-then-write: under the interleaving
read₁, read₂, write₁, write₂ of two handlers redeeming the same valid token,
both return a 200 success response and the used-at timestamp is written
twice (the second write overwriting the first) — so the claim fails on the
code; this theorem evaluates that failing schedule. -/
theorem C1_redemption_race_toctou :
    raceFirst.1 = Resp.okFetched (some { rowActive with qr_code_used_at := some 10, status := Status.PROCESSING }) [mkItem 1 itemA]
    ∧ raceSecond.1 = Resp.okFetched (some { rowActive with qr_code_used_at := some 11, status := Status.PROCESSING }) [mkItem 1 itemA]
    ∧ findByPk raceSecond.2 1 = some { rowActive with qr_code_used_at := some 11, status := Status.PROCESSING } := by
  decide

/-- C4: state-machine legality. `updateWishlist` and `generateQRCode` answer
`invalidState` (400) whenever the stored status is not ACTIVE;
`completeWishlist` answers `invalidState` unless the status is PROCESSING;
`cancelWishlist` and the manual `expireWishlist` succeed from every
prior status, persisting CANCELLED resp. EXPIRED. -/
theorem C4_state_machine_legality :
    (∀ wid uid its md s (w : Wishlist), uid ≠ "" →
        findOwned s wid uid = some w → w.status ≠ Status.ACTIVE →
        updateWishlist wid uid its md s = (Resp.invalidState w.status, s))
    ∧ (∀ wid uid now s (w : Wishlist), uid ≠ "" →
        findOwned s wid uid = some w → w.status ≠ Status.ACTIVE →
        generateQRCode wid uid now s = (Resp.invalidState w.status, s))
    ∧ (∀ wid pb oid now s (w : Wishlist), findByPk s wid = some w →
        w.status ≠ Status.PROCESSING →
        completeWishlist wid pb oid now s = (Resp.invalidState w.status, s))
    ∧ (∀ wid r s (w : Wishlist), findByPk s wid = some w →
        (cancelWishlist wid r s).1 =
          Resp.okCancelled { w with status := Status.CANCELLED, metadata := if r = "" then w.metadata else mset w.metadata "cancellation_reason" r }
        ∧ findByPk (cancelWishlist wid r s).2 wid =
          some { w with status := Status.CANCELLED, metadata := if r = "" then w.metadata else mset w.metadata "cancellation_reason" r })
    ∧ (∀ wid s (w : Wishlist), findByPk s wid = some w →
        (expireWishlist wid s).1 =
          Resp.okExpired { w with status := Status.EXPIRED }
        ∧ findByPk (expireWishlist wid s).2 wid =
          some { w with status := Status.EXPIRED }) := by
  refine ⟨?_, ?_, ?_, ?_, ?_⟩
  · intro wid uid its md s w huid hw hst
    unfold updateWishlist
    rw [if_neg huid]
    simp only [hw]
    rw [if_pos hst]
  · intro wid uid now s w huid hw hst
    unfold generateQRCode
    rw [if_neg huid]
    simp only [hw]
    rw [if_pos hst]
  · intro wid pb oid now s w hw hst
    unfold completeWishlist
    simp only [hw]
    rw [if_pos hst]
  · intro wid r s w hw
    have hsnd : (cancelWishlist wid r s).2 =
        updateRow s wid (fun x => { x with status := Status.CANCELLED, metadata := if r = "" then w.metadata else mset w.metadata "cancellation_reason" r }) := by
      unfold cancelWishlist
      rw [hw]
    constructor
    · unfold cancelWishlist
      rw [hw]
    · rw [hsnd]
      exact findByPk_updateRow_found _ (fun x => rfl) hw
  · intro wid s w hw
    have hsnd : (expireWishlist wid s).2 =
        updateRow s wid (fun x => { x with status := Status.EXPIRED }) := by
      unfold expireWishlist
      rw [hw]
    constructor
    · unfold expireWishlist
      rw [hw]
    · rw [hsnd]
      exact findByPk_updateRow_found _ (fun x => rfl) hw

/-- C4 witness: the five parts of the state-machine theorem evaluated on
concrete stores — a COMPLETED wishlist rejects update and QR generation, an
ACTIVE wishlist rejects completion, and cancel/expire succeed from the
terminal COMPLETED state. -/
theorem C4_witness :
    updateWishlist 1 "u1" none none storeCompleted =
      (Resp.invalidState Status.COMPLETED, storeCompleted)
    ∧ generateQRCode 1 "u1" 0 storeCompleted =
      (Resp.invalidState Status.COMPLETED, storeCompleted)
    ∧ completeWishlist 1 "" "" 0 storeActive =
      (Resp.invalidState Status.ACTIVE, storeActive)
    ∧ (cancelWishlist 1 "changed mind" storeCompleted).1 =
      Resp.okCancelled { rowCompleted with status := Status.CANCELLED, metadata := mset rowCompleted.metadata "cancellation_reason" "changed mind" }
    ∧ (expireWishlist 1 storeCompleted).1 =
      Resp.okExpired { rowCompleted with status := Status.EXPIRED } := by
  refine ⟨?_, ?_, ?_, ?_, ?_⟩
  · have h := C4_state_machine_legality.1 1 "u1" none none storeCompleted
      rowCompleted (by decide) (by decide) (by decide)
    simpa [rowCompleted, rowActive] using h
  · have h := C4_state_machine_legality.2.1 1 "u1" 0 storeCompleted
      rowCompleted (by decide) (by decide) (by decide)
    simpa [rowCompleted, rowActive] using h
  · have h := C4_state_machine_legality.2.2.1 1 "" "" 0 storeActive
      rowActive (by decide) (by decide)
    simpa [rowActive] using h
  · have h := (C4_state_machine_legality.2.2.2.1 1 "changed mind"
      storeCompleted rowCompleted (by decide)).1
    simpa using h
  · have h := (C4_state_machine_legality.2.2.2.2 1 storeCompleted
      rowCompleted (by decide)).1
    simpa using h

/-- C7: in every store reachable from creation through the service's
operations, a wishlist whose `qr_code_used_at` is set never has status
ACTIVE. -/
theorem C7_used_implies_not_active (s : Store) (h : Reach s) :
    UsedImpliesNotActive s := by
  induction h with
  | init =>
      intro w hw
      simp [emptyStore] at hw
  | step h1 h2 ih => exact usedInv_step h2 ih

/-- C7 witness: the invariant evaluated on a concrete reachable store, after
a create followed by a successful redemption. -/
theorem C7_witness_concrete :
    UsedImpliesNotActive
      (fetchWishlist 1 "tokW" 1
        (createWishlist "u1" [itemA] none 24 0 1 "tokW" [] emptyStore).2).2 :=
  C7_used_implies_not_active _
    (Reach.step
      (Reach.step Reach.init
        (Step.create "u1" [itemA] none 24 0 1 "tokW" [] emptyStore))
      (Step.redeem 1 "tokW" 1 _))

/-- C10: the status query returns the stored status, `qr_code_used` /
`processed` as null-checks of the two timestamps, and `expired` computed by
comparing `now` to `expires_at`; the store it returns is the store it was
given — nothing is persisted, in particular EXPIRED is not materialized. -/
theorem C10_status_query_read_only :
    (∀ wid now s (w : Wishlist), findByPk s wid = some w →
        getWishlistStatus wid now s =
          (Resp.okStatus w.status w.qr_code_used_at.isSome
            w.processed_at.isSome (decide (now > w.expires_at)), s))
    ∧ ∀ wid now s, (getWishlistStatus wid now s).2 = s := by
  constructor
  · intro wid now s w hw
    unfold getWishlistStatus
    rw [hw]
  · intro wid now s
    unfold getWishlistStatus
    split <;> rfl

/-- C10 witness: the status query on a concrete expired-but-still-ACTIVE
store reports `expired = true` while returning the store unchanged. -/
theorem C10_witness :
    getWishlistStatus 1 10 storeStale =
      (Resp.okStatus Status.ACTIVE false false true, storeStale) := by
  have h := C10_status_query_read_only.1 1 10 storeStale rowStale (by decide)
  simpa [rowStale, rowActive] using h

/-- C2: redeeming an ACTIVE, unexpired wishlist whose matching token has
never been used succeeds — the one UPDATE sets `qr_code_used_at = now` and
`status = PROCESSING` and the wishlist is returned with its items — and any
later redemption of the same token answers ConflictError carrying the
original usage timestamp. -/
theorem C2_redeem_success_then_conflict
    (wid : Nat) (tok : String) (now : Nat) (s : Store) (w : Wishlist)
    (htok : tok ≠ "") (hw : findByPk s wid = some w)
    (hmatch : w.qr_code_token = tok) (hunused : w.qr_code_used_at = none)
    (hactive : w.status = Status.ACTIVE) (hlive : ¬ now > w.expires_at) :
    fetchWishlist wid tok now s =
      (Resp.okFetched (some { w with qr_code_used_at := some now, status := Status.PROCESSING }) (itemsOf s wid),
       updateRow s wid (fun x => { x with qr_code_used_at := some now, status := Status.PROCESSING }))
    ∧ ∀ now2, fetchWishlist wid tok now2
        (updateRow s wid (fun x => { x with qr_code_used_at := some now, status := Status.PROCESSING })) =
      (Resp.conflictUsed now,
       updateRow s wid (fun x => { x with qr_code_used_at := some now, status := Status.PROCESSING })) := by
  have hupd : findByPk (updateRow s wid
      (fun x => { x with qr_code_used_at := some now, status := Status.PROCESSING })) wid =
      some { w with qr_code_used_at := some now, status := Status.PROCESSING } :=
    findByPk_updateRow_found _ (fun x => rfl) hw
  constructor
  · unfold fetchWishlist
    rw [if_neg htok]
    simp only [hw, hunused]
    rw [if_neg hlive, if_neg (fun hc : w.status ≠ Status.ACTIVE => hc hactive)]
    simp only [hupd, itemsOf_updateRow]
    rw [if_neg (fun hc : w.qr_code_token ≠ tok => hc hmatch)]
  · intro now2
    unfold fetchWishlist
    rw [if_neg htok]
    simp only [hupd]
    rw [if_neg (fun hc => hc hmatch)]

/-- C2 witness: the two parts of the redemption theorem evaluated on the
concrete ACTIVE store — success at t = 10, then conflict-with-timestamp at
t = 50. -/
theorem C2_witness :
    fetchWishlist 1 "tok1" 10 storeActive =
      (Resp.okFetched (some { rowActive with qr_code_used_at := some 10, status := Status.PROCESSING }) [mkItem 1 itemA],
       updateRow storeActive 1 (fun x => { x with qr_code_used_at := some 10, status := Status.PROCESSING }))
    ∧ fetchWishlist 1 "tok1" 50
        (updateRow storeActive 1 (fun x => { x with qr_code_used_at := some 10, status := Status.PROCESSING })) =
      (Resp.conflictUsed 10,
       updateRow storeActive 1 (fun x => { x with qr_code_used_at := some 10, status := Status.PROCESSING })) := by
  have h := C2_redeem_success_then_conflict 1 "tok1" 10 storeActive rowActive
    (by decide) (by decide) (by decide) (by decide) (by decide) (by decide)
  constructor
  · have h1 := h.1
    have hit : itemsOf storeActive 1 = [mkItem 1 itemA] := rfl
    rw [hit] at h1
    exact h1
  · exact h.2 50

/-- C5 counterexample: a wishlist whose `expires_at = 5` lies in the past
(logical time 10) and whose stored status is still ACTIVE is returned by the
GetById read as a stale ACTIVE 200 view, with the store unchanged — the code
performs no expiry check in `getWishlist`, contradicting the claim that the
very next read persists EXPIRED and answers 410. -/
theorem C5_cx_stale_active_read :
    (10 > rowStale.expires_at ∧ rowStale.status = Status.ACTIVE)
    ∧ getWishlist 1 "u1" storeStale =
        (Resp.okWishlist (some rowStale) [], storeStale) := by
  decide

/-- C5 amended: lazy expiration materializes on GenerateOrFetchQR (from
ACTIVE) and on Redeem (matching unused token): both persist
`status = EXPIRED` and answer 410. The GetById read performs no expiry check
and never writes, so it can return a stale ACTIVE view of an expired
wishlist. -/
theorem C5_lazy_expiration_amended :
    (∀ wid uid now s (w : Wishlist), uid ≠ "" → findOwned s wid uid = some w →
        w.status = Status.ACTIVE → now > w.expires_at →
        generateQRCode wid uid now s =
          (Resp.gone none,
           updateRow s wid (fun x => { x with status := Status.EXPIRED })))
    ∧ (∀ wid tok now s (w : Wishlist), tok ≠ "" → findByPk s wid = some w →
        w.qr_code_token = tok → w.qr_code_used_at = none →
        now > w.expires_at →
        fetchWishlist wid tok now s =
          (Resp.gone (some w.expires_at),
           updateRow s wid (fun x => { x with status := Status.EXPIRED })))
    ∧ ∀ wid uid s, (getWishlist wid uid s).2 = s := by
  refine ⟨?_, ?_, ?_⟩
  · intro wid uid now s w huid hw hact hexp
    unfold generateQRCode
    rw [if_neg huid]
    simp only [hw]
    rw [if_neg (fun hc : w.status ≠ Status.ACTIVE => hc hact), if_pos hexp]
  · intro wid tok now s w htok hw hmatch hunused hexp
    unfold fetchWishlist
    rw [if_neg htok]
    simp only [hw, hunused]
    rw [if_neg (fun hc : w.qr_code_token ≠ tok => hc hmatch), if_pos hexp]
  · intro wid uid s
    unfold getWishlist
    split
    · rfl
    · split <;> rfl

/-- C5 witness: both expiry-materializing operations evaluated on the
concrete expired-but-ACTIVE store at t = 10. -/
theorem C5_witness :
    generateQRCode 1 "u1" 10 storeStale =
      (Resp.gone none,
       updateRow storeStale 1 (fun x => { x with status := Status.EXPIRED }))
    ∧ fetchWishlist 1 "tok1" 10 storeStale =
      (Resp.gone (some 5),
       updateRow storeStale 1 (fun x => { x with status := Status.EXPIRED })) := by
  constructor
  · exact C5_lazy_expiration_amended.1 1 "u1" 10 storeStale rowStale
      (by decide) (by decide) (by decide) (by decide)
  · have h := C5_lazy_expiration_amended.2.1 1 "tok1" 10 storeStale rowStale
      (by decide) (by decide) (by decide) (by decide) (by decide)
    simpa [rowStale, rowActive] using h

/-- C6 counterexample: with the (single) item insert failing, create
propagates an error yet leaves the wishlist row persisted with no items —
the wishlist and its items are not persisted all-or-nothing. -/
theorem C6_cx_orphan_wishlist :
    (createWishlist "u1" [itemA] none 24 0 7 "tokN" [false] emptyStore).1 =
      Resp.serverError
    ∧ (createWishlist "u1" [itemA] none 24 0 7 "tokN" [false] emptyStore).2.wishlists ≠ []
    ∧ (createWishlist "u1" [itemA] none 24 0 7 "tokN" [false] emptyStore).2.items = [] := by
  decide

/-- C6 amended: creation is not transactional — the wishlist row is inserted
first and unconditionally. When every item insert succeeds the row and all
supplied items are persisted and 201 returned; whatever the insert outcomes,
the wishlist row is appended to the store; and when some item insert fails
the response is the propagated error while the row remains (an orphan). -/
theorem C6_create_not_transactional_amended :
    (∀ uid its md eh now nid tok (s : Store), uid ≠ "" → its ≠ [] →
        createWishlist uid its md eh now nid tok [] s =
          (Resp.created
            (findByPk (insertItems (insertWishlist s (freshRow uid md eh now nid tok)) (its.map (mkItem nid))) nid)
            (itemsOf (insertItems (insertWishlist s (freshRow uid md eh now nid tok)) (its.map (mkItem nid))) nid),
           insertItems (insertWishlist s (freshRow uid md eh now nid tok)) (its.map (mkItem nid))))
    ∧ (∀ uid its md eh now nid tok oks (s : Store), uid ≠ "" → its ≠ [] →
        (createWishlist uid its md eh now nid tok oks s).2.wishlists =
          s.wishlists ++ [freshRow uid md eh now nid tok])
    ∧ (∀ uid its md eh now nid tok oks (s : Store), uid ≠ "" → its ≠ [] →
        (insertItemRows nid its oks).2 = false →
        (createWishlist uid its md eh now nid tok oks s).1 = Resp.serverError) := by
  refine ⟨?_, ?_, ?_⟩
  · intro uid its md eh now nid tok s huid hits
    unfold createWishlist
    rw [if_neg huid, if_neg (by simpa [List.isEmpty_iff] using hits)]
    simp only [insertItemRows_nil_mask]
    simp [freshRow]
  · intro uid its md eh now nid tok oks s huid hits
    unfold createWishlist
    rw [if_neg huid, if_neg (by simpa [List.isEmpty_iff] using hits)]
    rcases hrows : insertItemRows nid its oks with ⟨rows, allOk⟩
    cases allOk <;> rfl
  · intro uid its md eh now nid tok oks s huid hits hfail
    unfold createWishlist
    rw [if_neg huid, if_neg (by simpa [List.isEmpty_iff] using hits)]
    rcases hrows : insertItemRows nid its oks with ⟨rows, allOk⟩
    rw [hrows] at hfail
    simp at hfail
    subst hfail
    rfl

/-- C6 witness: the amended theorem evaluated concretely — an all-successful
create persists the row and its item, and a create whose item insert fails
still leaves the row in the store. -/
theorem C6_witness :
    createWishlist "u1" [itemA] none 24 0 7 "tokN" [] emptyStore =
      (Resp.created (some (freshRow "u1" none 24 0 7 "tokN")) [mkItem 7 itemA],
       insertItems (insertWishlist emptyStore (freshRow "u1" none 24 0 7 "tokN")) [mkItem 7 itemA])
    ∧ (createWishlist "u1" [itemA] none 24 0 7 "tokN" [false] emptyStore).2.wishlists =
      [freshRow "u1" none 24 0 7 "tokN"] := by
  constructor
  · have h := C6_create_not_transactional_amended.1 "u1" [itemA] none 24 0 7
      "tokN" emptyStore (by decide) (by decide)
    rw [h]
    decide
  · have h := C6_create_not_transactional_amended.2.1 "u1" [itemA] none 24 0 7
      "tokN" [false] emptyStore (by decide) (by decide)
    rw [h]
    rfl

/-- C3 counterexample: in `wishlist.controller createWishlist`, validation
precedes the idempotency lookup. A Create call whose key "key1" has a
COMPLETED ledger record but whose items array is empty is answered 400, not
the cached replay the claim promises for every Create call with that key. -/
theorem C3_cx_validation_precedes_replay :
    findIdem storeIdem "key1" = some idemCompleted
    ∧ idemCompleted.status = IdemStatus.COMPLETED
    ∧ createWishlistGeneral (some "key1") "u1" [] none none 24 0 9 "tokZ" [] storeIdem =
      (Resp.validationErr "items array is required and must not be empty", storeIdem) := by
  decide

/-- C3 amended: for a Create call that passes validation (non-empty user_id
and items): a key with a COMPLETED ledger record is answered with the cached
response body verbatim and HTTP-equivalent OK (`okReplay`, not `created`),
leaving the store — in particular the wishlist table — unchanged; a key with
a PROCESSING record is answered ConflictError with the store unchanged; and
the ledger INSERT is conditional on the key's absence (the store's
uniqueness constraint), so of two concurrent inserts of one key exactly one
succeeds and the second fails the constraint (the controller propagates
that failure rather than proceeding). -/
theorem C3_idempotent_create_amended :
    (∀ k uid its so md eh now nid tok oks s (r : IdemRecord), uid ≠ "" →
        its ≠ [] → findIdem s k = some r →
        r.status = IdemStatus.COMPLETED →
        createWishlistGeneral (some k) uid its so md eh now nid tok oks s =
          (Resp.okReplay r.response_data, s))
    ∧ (∀ k uid its so md eh now nid tok oks s (r : IdemRecord), uid ≠ "" →
        its ≠ [] → findIdem s k = some r →
        r.status = IdemStatus.PROCESSING →
        createWishlistGeneral (some k) uid its so md eh now nid tok oks s =
          (Resp.conflictKey, s))
    ∧ ∀ k s, findIdem s k = none →
        idemCreate k s = some { s with idems := s.idems ++
          [{ idempotency_key := k, wishlist_id := none,
             operation_type := "CREATE_WISHLIST", response_data := none,
             status := IdemStatus.PROCESSING }] }
        ∧ ∀ s1, idemCreate k s = some s1 → idemCreate k s1 = none := by
  refine ⟨?_, ?_, ?_⟩
  · intro k uid its so md eh now nid tok oks s r huid hits hr hst
    have he : earlyIdemResp (some k) s = some (Resp.okReplay r.response_data) := by
      unfold earlyIdemResp
      simp only [hr, hst]
    unfold createWishlistGeneral
    rw [if_neg huid, if_neg (by simpa [List.isEmpty_iff] using hits), he]
  · intro k uid its so md eh now nid tok oks s r huid hits hr hst
    have he : earlyIdemResp (some k) s = some Resp.conflictKey := by
      unfold earlyIdemResp
      simp only [hr, hst]
    unfold createWishlistGeneral
    rw [if_neg huid, if_neg (by simpa [List.isEmpty_iff] using hits), he]
  · intro k s hnone
    have h1 : idemCreate k s = some { s with idems := s.idems ++
        [{ idempotency_key := k, wishlist_id := none,
           operation_type := "CREATE_WISHLIST", response_data := none,
           status := IdemStatus.PROCESSING }] } := by
      unfold idemCreate
      simp only [hnone]
    refine ⟨h1, ?_⟩
    intro s1 hs1
    have hs1e : s1 = { s with idems := s.idems ++
        [{ idempotency_key := k, wishlist_id := none,
           operation_type := "CREATE_WISHLIST", response_data := none,
           status := IdemStatus.PROCESSING }] } := by
      rw [h1] at hs1
      exact (Option.some.inj hs1).symm
    subst hs1e
    have h2 : findIdem { s with idems := s.idems ++
        [{ idempotency_key := k, wishlist_id := none,
           operation_type := "CREATE_WISHLIST", response_data := none,
           status := IdemStatus.PROCESSING }] } k =
        some { idempotency_key := k, wishlist_id := none,
               operation_type := "CREATE_WISHLIST", response_data := none,
               status := IdemStatus.PROCESSING } := by
      unfold findIdem at hnone ⊢
      rw [List.find?_append, hnone]
      simp
    unfold idemCreate
    rw [h2]

/-- C3 witness: the amended theorem evaluated on the concrete ledger store —
a valid Create with the COMPLETED key "key1" replays its cached body, one
with the PROCESSING key "key2" conflicts, and on the fresh key "k9" the
constrained insert succeeds once and the repeat insert violates the
constraint. -/
theorem C3_witness :
    createWishlistGeneral (some "key1") "u2" [itemA] none none 24 0 9 "tokZ" [] storeIdem =
      (Resp.okReplay (some ⟨some rowActive, [mkItem 1 itemA], "tok1"⟩), storeIdem)
    ∧ createWishlistGeneral (some "key2") "u2" [itemA] none none 24 0 9 "tokZ" [] storeIdem =
      (Resp.conflictKey, storeIdem)
    ∧ (idemCreate "k9" storeIdem).isSome = true
    ∧ idemCreate "k9" ((idemCreate "k9" storeIdem).getD storeIdem) = none := by
  have h3 := C3_idempotent_create_amended.2.2 "k9" storeIdem (by decide)
  refine ⟨?_, ?_, ?_, ?_⟩
  · have h := C3_idempotent_create_amended.1 "key1" "u2" [itemA] none none 24
      0 9 "tokZ" [] storeIdem idemCompleted (by decide) (by decide)
      (by decide) (by decide)
    rw [h]
    decide
  · exact C3_idempotent_create_amended.2.1 "key2" "u2" [itemA] none none 24
      0 9 "tokZ" [] storeIdem idemInflight (by decide) (by decide)
      (by decide) (by decide)
  · rw [h3.1]
    rfl
  · rw [h3.1]
    exact h3.2 _ h3.1

/-- C8: GenerateOrFetchQR never mints a second token: on an ACTIVE unexpired
wishlist it answers with the creation-time `qr_code_token` and writes
nothing; two successive calls answer the identical token; and every
operation of the service preserves the `qr_code_token` of every existing
row — no code path regenerates it. -/
theorem C8_qr_token_stable :
    (∀ wid uid now s (w : Wishlist), uid ≠ "" → findOwned s wid uid = some w →
        w.status = Status.ACTIVE → ¬ now > w.expires_at →
        generateQRCode wid uid now s =
          (Resp.okQR w.qr_code_token w.expires_at
            ((itemsOf s wid).map (fun it => (it.shopify_variant_id, it.quantity))), s))
    ∧ (∀ wid uid now1 now2 s (w : Wishlist), uid ≠ "" →
        findOwned s wid uid = some w → w.status = Status.ACTIVE →
        ¬ now1 > w.expires_at → ¬ now2 > w.expires_at →
        (generateQRCode wid uid now2 (generateQRCode wid uid now1 s).2).1 =
          Resp.okQR w.qr_code_token w.expires_at
            ((itemsOf s wid).map (fun it => (it.shopify_variant_id, it.quantity)))
        ∧ (generateQRCode wid uid now1 s).1 =
          Resp.okQR w.qr_code_token w.expires_at
            ((itemsOf s wid).map (fun it => (it.shopify_variant_id, it.quantity))))
    ∧ ∀ s s', Step s s' → TokenPreserved s s' := by
  have h1 : ∀ wid uid now s (w : Wishlist), uid ≠ "" →
      findOwned s wid uid = some w → w.status = Status.ACTIVE →
      ¬ now > w.expires_at →
      generateQRCode wid uid now s =
        (Resp.okQR w.qr_code_token w.expires_at
          ((itemsOf s wid).map (fun it => (it.shopify_variant_id, it.quantity))), s) := by
    intro wid uid now s w huid hw hact hexp
    unfold generateQRCode
    rw [if_neg huid]
    simp only [hw]
    rw [if_neg (fun hc : w.status ≠ Status.ACTIVE => hc hact), if_neg hexp]
  refine ⟨h1, ?_, fun s s' h => tok_step h⟩
  intro wid uid now1 now2 s w huid hw hact he1 he2
  have ha := h1 wid uid now1 s w huid hw hact he1
  refine ⟨?_, by rw [ha]⟩
  rw [ha]
  exact congrArg Prod.fst (h1 wid uid now2 s w huid hw hact he2)

/-- C8 witness: QR generation on the concrete ACTIVE store answers the
stored token both times and leaves the store unchanged. -/
theorem C8_witness :
    generateQRCode 1 "u1" 10 storeActive =
      (Resp.okQR "tok1" 100 [(some "v1", 2)], storeActive)
    ∧ (generateQRCode 1 "u1" 20 (generateQRCode 1 "u1" 10 storeActive).2).1 =
      Resp.okQR "tok1" 100 [(some "v1", 2)] := by
  constructor
  · have h := C8_qr_token_stable.1 1 "u1" 10 storeActive rowActive
      (by decide) (by decide) (by decide) (by decide)
    rw [h]
    decide
  · have h := (C8_qr_token_stable.2.1 1 "u1" 10 20 storeActive rowActive
      (by decide) (by decide) (by decide) (by decide) (by decide)).1
    rw [h]
    decide

/-- C9 counterexample: `updateWishlist` writes a provided metadata object
wholesale. On a wishlist whose stored metadata holds the key "kiosk", an
update supplying metadata with only the key "note" persists a metadata in
which "kiosk" is gone — the pre-existing entry is discarded, not merged, so
the claim fails on the code for the update operation. -/
theorem C9_cx_update_discards_metadata :
    mget rowActive.metadata "kiosk" = some "K1"
    ∧ (findByPk (updateWishlist 1 "u1" none (some [("note", "n")]) storeActive).2 1).map
        (fun x => mget x.metadata "kiosk") = some none := by
  decide

/-- C9 amended: Cancel and Complete merge their engine-supplied entry into a
spread copy of the stored metadata, preserving every other key's old value;
UpdateItems instead replaces the whole metadata object with the
caller-supplied one. -/
theorem C9_metadata_merge_amended :
    (∀ wid r s (w : Wishlist) k, findByPk s wid = some w →
        k ≠ "cancellation_reason" →
        (findByPk (cancelWishlist wid r s).2 wid).map (fun x => mget x.metadata k) =
          some (mget w.metadata k))
    ∧ (∀ wid pb oid now s (w : Wishlist) k, findByPk s wid = some w →
        w.status = Status.PROCESSING → k ≠ "shopify_order_id" →
        (findByPk (completeWishlist wid pb oid now s).2 wid).map (fun x => mget x.metadata k) =
          some (mget w.metadata k))
    ∧ (∀ wid uid m s (w : Wishlist), uid ≠ "" → findOwned s wid uid = some w →
        w.status = Status.ACTIVE →
        (updateWishlist wid uid none (some m) s).2 =
          updateRow s wid (fun x => { x with metadata := m })) := by
  refine ⟨?_, ?_, ?_⟩
  · intro wid r s w k hw hk
    have hsnd : (cancelWishlist wid r s).2 =
        updateRow s wid (fun x => { x with status := Status.CANCELLED, metadata := if r = "" then w.metadata else mset w.metadata "cancellation_reason" r }) := by
      unfold cancelWishlist
      rw [hw]
    have hfind : findByPk (cancelWishlist wid r s).2 wid =
        some { w with status := Status.CANCELLED, metadata := if r = "" then w.metadata else mset w.metadata "cancellation_reason" r } := by
      rw [hsnd]
      exact findByPk_updateRow_found _ (fun x => rfl) hw
    rw [hfind]
    by_cases hr : r = ""
    · simp [hr]
    · simp [hr, mget_mset_ne w.metadata "cancellation_reason" r k hk]
  · intro wid pb oid now s w k hw hproc hk
    have hsnd : (completeWishlist wid pb oid now s).2 =
        updateRow s wid (fun x => { x with status := Status.COMPLETED, processed_at := some now, processed_by := some (if pb = "" then "POS" else pb), metadata := if oid = "" then w.metadata else mset w.metadata "shopify_order_id" oid }) := by
      unfold completeWishlist
      simp only [hw]
      rw [if_neg (fun hc : w.status ≠ Status.PROCESSING => hc hproc)]
    have hfind : findByPk (completeWishlist wid pb oid now s).2 wid =
        some { w with status := Status.COMPLETED, processed_at := some now, processed_by := some (if pb = "" then "POS" else pb), metadata := if oid = "" then w.metadata else mset w.metadata "shopify_order_id" oid } := by
      rw [hsnd]
      exact findByPk_updateRow_found _ (fun x => rfl) hw
    rw [hfind]
    by_cases ho : oid = ""
    · simp [ho]
    · simp [ho, mget_mset_ne w.metadata "shopify_order_id" oid k hk]
  · intro wid uid m s w huid hw hact
    unfold updateWishlist
    rw [if_neg huid]
    simp only [hw]
    rw [if_neg (fun hc : w.status ≠ Status.ACTIVE => hc hact)]

/-- C9 witness: on concrete stores, cancelling (with a reason) and
completing (with an order id) both keep the pre-existing "kiosk" metadata
entry, while the update path persists exactly the caller's metadata
object. -/
theorem C9_witness :
    (findByPk (cancelWishlist 1 "late" storeActive).2 1).map
      (fun x => mget x.metadata "kiosk") = some (some "K1")
    ∧ (findByPk (completeWishlist 1 "POS1" "ORD-1" 7 storeProcessing).2 1).map
      (fun x => mget x.metadata "kiosk") = some (some "K1")
    ∧ (updateWishlist 1 "u1" none (some [("note", "n")]) storeActive).2 =
      updateRow storeActive 1 (fun x => { x with metadata := [("note", "n")] }) := by
  refine ⟨?_, ?_, ?_⟩
  · have h := C9_metadata_merge_amended.1 1 "late" storeActive rowActive
      "kiosk" (by decide) (by decide)
    rw [h]
    decide
  · have h := C9_metadata_merge_amended.2.1 1 "POS1" "ORD-1" 7 storeProcessing
      rowProcessing "kiosk" (by decide) (by decide) (by decide)
    rw [h]
    decide
  · exact C9_metadata_merge_amended.2.2 1 "u1" [("note", "n")] storeActive
      rowActive (by decide) (by decide) (by decide)

end Shopify
